import Mathlib

/-!
Verification development for the user-management layer (profiles, username
RPC, RBAC flags, TOTP setup dialog, create-user edge function).

The definitions below are shallow embeddings of the repository code:

* `update_username` embeds the plpgsql function
  `public.update_username(new_username TEXT)` from
  supabase/migrations/add_update_username_rpc.sql.  A `RAISE EXCEPTION`
  aborts the enclosing transaction, so an exception leaves the profiles
  table unchanged; the embedding therefore returns `Except.error` carrying
  the (abridged, ASCII) message tag and no new table state.

* `set_totp_enabled` embeds `public.set_totp_enabled(p_is_enabled BOOLEAN)`
  from supabase/migrations/add_totp_related_profile_settings.sql.  In the
  source the `UPDATE` runs first and `IF NOT FOUND THEN RAISE EXCEPTION`
  rolls it back, which is observationally the conditional below.

* the profiles table is a list of rows; `id` is the primary key, so real
  database states have pairwise-distinct ids (a hypothesis where needed).
-/

/-- Row of the public.profiles table, with the columns used by this
repository (id, username, full_name, role, status, is_totp_enabled;
the UserProfile type in UserManagementPage lists these fields). -/
structure ProfileRow where
  id : Nat
  username : String
  full_name : String
  role : String
  status : String
  is_totp_enabled : Bool
deriving DecidableEq, Repr

/-- Character class of the regex [a-zA-Z0-9_.] used both by the zod schema
in UsernameEditForm.tsx and by the plpgsql check new_username !~
endash-anchored [a-zA-Z0-9_.]+ in update_username. -/
def usernameCharOk (c : Char) : Bool :=
  (decide ('a' ≤ c) && decide (c ≤ 'z'))
    || (decide ('A' ≤ c) && decide (c ≤ 'Z'))
    || (decide ('0' ≤ c) && decide (c ≤ '9'))
    || c == '_' || c == '.'

/-- Whether a string matches the anchored regex (one or more characters,
all in the class above). -/
def usernameRegexOk (s : String) : Bool :=
  !(s.data.isEmpty) && s.data.all usernameCharOk

/-- ASCII lowercase of a string, modelling both the SQL lower() applied to
usernames and the JavaScript toLowerCase() applied to error messages (the
operative alphabet of both is ASCII here). -/
def strLower (s : String) : String :=
  (s.data.map Char.toLower).asString

/-- Trim of leading and trailing whitespace, modelling JavaScript
String.prototype.trim. -/
def strTrim (s : String) : String :=
  ((s.data.dropWhile Char.isWhitespace).reverse.dropWhile Char.isWhitespace).reverse.asString

/-- Whether the first character list is an initial segment of the second. -/
def chStarts : List Char → List Char → Bool
  | [], _ => true
  | _ :: _, [] => false
  | c :: cs, d :: ds => c == d && chStarts cs ds

/-- Whether the first character list occurs inside the second. -/
def chOccurs (n : List Char) (h : List Char) : Bool :=
  chStarts n h ||
    match h with
    | [] => false
    | _ :: t => chOccurs n t

/-- Effect of the UPDATE statement of public.update_username on the
profiles table: SET username = new_username WHERE id = auth.uid(). -/
def applyUsername (state : List ProfileRow) (uid : Nat) (u : String) : List ProfileRow :=
  state.map fun p => if p.id = uid then { p with username := u } else p

/-- Effect of the UPDATE statement of public.set_totp_enabled on the
profiles table: SET is_totp_enabled = p_is_enabled WHERE id = auth.uid(). -/
def applyTotpFlag (state : List ProfileRow) (uid : Nat) (b : Bool) : List ProfileRow :=
  state.map fun p => if p.id = uid then { p with is_totp_enabled := b } else p

/-- Embedding of public.update_username.  Checks, in source order:
char_length < 3, char_length > 30, the character regex, then the
case-insensitive uniqueness check that excludes the row of the caller
(id <> current_user_id); on success it updates the username of the rows
whose id equals auth.uid() and returns the updated row (RETURNING * INTO). -/
def update_username (state : List ProfileRow) (uid : Nat) (new_username : String) :
    Except String (List ProfileRow × Option ProfileRow) :=
  if new_username.length < 3 then
    Except.error "username_too_short"
  else if 30 < new_username.length then
    Except.error "username_too_long"
  else if ¬ usernameRegexOk new_username then
    Except.error "username_invalid_characters"
  else if ∃ p ∈ state, strLower p.username = strLower new_username ∧ p.id ≠ uid then
    Except.error "username_already_taken"
  else
    Except.ok (applyUsername state uid new_username,
      (applyUsername state uid new_username).find? fun p => p.id == uid)

/-- Embedding of public.set_totp_enabled: sets is_totp_enabled of the rows
whose id equals auth.uid(); raises (rolling the update back) when no row
was found. -/
def set_totp_enabled (state : List ProfileRow) (uid : Nat) (b : Bool) :
    Except String (List ProfileRow) :=
  if ∃ p ∈ state, p.id = uid then Except.ok (applyTotpFlag state uid b)
  else Except.error "profile_not_found"

/-- Acceptance predicate of the zod schema usernameFormSchema in
UsernameEditForm.tsx: min(3), max(30), regex [a-zA-Z0-9_.]+ anchored. -/
def usernameFormSchema (s : String) : Bool :=
  decide (3 ≤ s.length) && decide (s.length ≤ 30) && usernameRegexOk s

/-- Local (format-only) validation performed by update_username before its
uniqueness check, in source order. -/
def update_username_localValidation (s : String) : Bool :=
  if s.length < 3 then false
  else if 30 < s.length then false
  else if ¬ usernameRegexOk s then false
  else true

/-- RBAC flags computed by the useAuth hook.  The hook also returns the
profile, session and callbacks; only the derived booleans matter here. -/
structure UseAuthFlags where
  isUser : Bool
  isModerator : Bool
  isAdmin : Bool
  isSuperAdmin : Bool
  canModerate : Bool
  canAdminister : Bool
deriving DecidableEq, Repr

/-- Embedding of the useAuth hook body: role is context.profile?.role ?? null
(hence Option String), and the flags compare it against the UPPERCASE
literals USER, MODERATOR, ADMIN, SUPER_ADMIN exactly as written in the hook. -/
def useAuthFlags (role : Option String) : UseAuthFlags :=
  let isUser := role == some "USER"
  let isModerator := role == some "MODERATOR"
  let isAdmin := role == some "ADMIN"
  let isSuperAdmin := role == some "SUPER_ADMIN"
  { isUser := isUser
    isModerator := isModerator
    isAdmin := isAdmin
    isSuperAdmin := isSuperAdmin
    canModerate := isModerator || isAdmin || isSuperAdmin
    canAdminister := isAdmin || isSuperAdmin }

/-- Role gate of the UserManagementPage useEffect: fetches users only when
contextProfile.role is the lowercase literal admin or SUPER_ADMIN. -/
def userManagementRoleGate (role : Option String) : Bool :=
  role == some "admin" || role == some "SUPER_ADMIN"

/-- Role values declared by the UserProfile type in UserManagementPage
(user, moderator, admin in lowercase, plus SUPER_ADMIN); the create-user
edge function payload restricts to the first three. -/
def declaredProfileRoles : List String :=
  ["user", "moderator", "admin", "SUPER_ADMIN"]

/-- Steps of the TOTP setup dialog wizard (TotpSetupDialog.tsx). -/
inductive TotpStep where
  | enroll
  | verify
  | recoveryCodes
  | completed
deriving DecidableEq, Repr

/-- Data returned by supabase.auth.mfa.enroll (EnrollResponseData). -/
structure EnrollResponseData where
  id : String
  qr_code : String
  secret : String
deriving DecidableEq, Repr

/-- Data returned by supabase.auth.mfa.verify (VerifyResponseData): the
recovery codes may appear at top level or under totp, or be absent. -/
structure VerifyResponseData where
  recovery_codes : Option (List String)
  totp_recovery_codes : Option (List String)
deriving DecidableEq, Repr

/-- Embedding of the JavaScript expression
typedVerifyData.recovery_codes OR (typedVerifyData.totp AND
typedVerifyData.totp.recovery_codes): the top-level field wins when it is
defined (even when it is an empty array, which is truthy in JavaScript). -/
def extractRecoveryCodes (v : VerifyResponseData) : Option (List String) :=
  match v.recovery_codes with
  | some cs => some cs
  | none => v.totp_recovery_codes

/-- React state of TotpSetupDialog. -/
structure TotpDialogState where
  isLoading : Bool
  error : Option String
  factorId : Option String
  qrCodeSvg : Option String
  secretKey : Option String
  verificationCode : String
  step : TotpStep
  recoveryCodes : List String
deriving DecidableEq, Repr

/-- Embedding of resetDialogState: every piece of state back to its initial
value, the step back to enroll. -/
def resetDialogState : TotpDialogState :=
  { isLoading := false
    error := none
    factorId := none
    qrCodeSvg := none
    secretKey := none
    verificationCode := ""
    step := TotpStep.enroll
    recoveryCodes := [] }

/-- Input sanitization of the verification-code field in the dialog:
onChange strips all whitespace (value.replace of the whitespace class by
the empty string). -/
def stripWhitespace (s : String) : String :=
  (s.data.filter fun c => !c.isWhitespace).asString

/-- Input sanitization of the disable-TOTP code field in ProfilePage:
onChange keeps only digits and truncates to 6 (replace of non-digits,
then slice(0,6)). -/
def sanitizeDisableCode (s : String) : String :=
  ((s.data.filter fun c => c.isDigit).take 6).asString

/-- Result of one run of handleVerifyCode: the new dialog state plus which
external calls were made (challenge, verify, the set_totp_enabled RPC with
its boolean arguments) and whether onSetupComplete fired. -/
structure VerifyOutcome where
  state : TotpDialogState
  challengeCalled : Bool
  verifyCalled : Bool
  rpcSetTotpEnabledArgs : List Bool
  setupCompleted : Bool
deriving DecidableEq, Repr

/-- Embedding of handleVerifyCode.  The provider results (challenge, then
verify) are inputs: the client never computes a TOTP value itself.  The
early guard rejects a missing factorId or a code whose length is not 6;
a challenge or verify error sets the error message and changes nothing
else; on success the set_totp_enabled RPC is called with true and the step
moves to recoveryCodes (codes present and non-empty) or completed. -/
def handleVerifyCode (st : TotpDialogState)
    (challengeResp : Except String String)
    (verifyResp : Except String VerifyResponseData) : VerifyOutcome :=
  if st.factorId.isNone || !(st.verificationCode.length == 6) then
    { state := { st with error := some "enter_a_6_digit_code" },
      challengeCalled := false, verifyCalled := false,
      rpcSetTotpEnabledArgs := [], setupCompleted := false }
  else
    match challengeResp with
    | Except.error msg =>
      { state := { st with isLoading := false, error := some msg },
        challengeCalled := true, verifyCalled := false,
        rpcSetTotpEnabledArgs := [], setupCompleted := false }
    | Except.ok _ =>
      match verifyResp with
      | Except.error msg =>
        { state := { st with isLoading := false, error := some msg },
          challengeCalled := true, verifyCalled := true,
          rpcSetTotpEnabledArgs := [], setupCompleted := false }
      | Except.ok v =>
        match extractRecoveryCodes v with
        | some cs =>
          if 0 < cs.length then
            { state := { st with
                           isLoading := false
                           error := none
                           recoveryCodes := cs
                           step := TotpStep.recoveryCodes },
              challengeCalled := true, verifyCalled := true,
              rpcSetTotpEnabledArgs := [true], setupCompleted := false }
          else
            { state := { st with
                           isLoading := false
                           error := none
                           step := TotpStep.completed },
              challengeCalled := true, verifyCalled := true,
              rpcSetTotpEnabledArgs := [true], setupCompleted := true }
        | none =>
          { state := { st with
                         isLoading := false
                         error := none
                         step := TotpStep.completed },
            challengeCalled := true, verifyCalled := true,
            rpcSetTotpEnabledArgs := [true], setupCompleted := true }

/-- Events that drive the dialog state: the enroll effect resolving, a
click on the verify button (carrying the provider responses), the
recovery-codes-saved confirmation click, and closing the dialog. -/
inductive TotpDialogEvent where
  | enrollResult (r : Except String EnrollResponseData)
  | verifyClick (challengeResp : Except String String)
      (verifyResp : Except String VerifyResponseData)
  | recoveryCodesSavedClick
  | closeDialog
deriving Repr

/-- Transition function of the dialog.  Guards come from the source: the
enroll effect only runs while the step is enroll (useEffect condition);
the verify button is only rendered in the verify step; the saved-codes
button only in the recoveryCodes step; the Dialog onOpenChange handler
resets the whole state whenever the dialog closes in a step other than
completed. -/
def totpDialogNext (st : TotpDialogState) (e : TotpDialogEvent) : TotpDialogState :=
  match e with
  | TotpDialogEvent.enrollResult r =>
    if st.step = TotpStep.enroll then
      match r with
      | Except.ok d =>
        { st with
          isLoading := false
          error := none
          factorId := some d.id
          qrCodeSvg := some d.qr_code
          secretKey := some d.secret
          step := TotpStep.verify }
      | Except.error msg => { st with isLoading := false, error := some msg }
    else st
  | TotpDialogEvent.verifyClick ch vr =>
    if st.step = TotpStep.verify then (handleVerifyCode st ch vr).state else st
  | TotpDialogEvent.recoveryCodesSavedClick =>
    if st.step = TotpStep.recoveryCodes then { st with step := TotpStep.completed }
    else st
  | TotpDialogEvent.closeDialog =>
    if st.step = TotpStep.completed then st else resetDialogState

/-- What renderContent displays as recovery codes: the recoveryCodes list,
exactly when the step is recoveryCodes and the list is non-empty (the
guard step === recoveryCodes AND recoveryCodes.length > 0 in the source). -/
def displayedRecoveryCodes (st : TotpDialogState) : Option (List String) :=
  if st.step = TotpStep.recoveryCodes ∧ 0 < st.recoveryCodes.length then
    some st.recoveryCodes
  else none

/-- Observables of a handleVerifyCode run: everything the claim compares
across runs (step, error, recovery codes, which calls were made, the RPC
arguments, completion); the entered code itself is not an observable. -/
structure VerifyObservables where
  step : TotpStep
  error : Option String
  recoveryCodes : List String
  challengeCalled : Bool
  verifyCalled : Bool
  rpcSetTotpEnabledArgs : List Bool
  setupCompleted : Bool
deriving DecidableEq, Repr

/-- Projection of a VerifyOutcome to its observables. -/
def verifyObservables (o : VerifyOutcome) : VerifyObservables :=
  { step := o.state.step
    error := o.state.error
    recoveryCodes := o.state.recoveryCodes
    challengeCalled := o.challengeCalled
    verifyCalled := o.verifyCalled
    rpcSetTotpEnabledArgs := o.rpcSetTotpEnabledArgs
    setupCompleted := o.setupCompleted }

/-- MFA factor as returned by supabase.auth.mfa.listFactors (totp list). -/
structure MfaFactor where
  id : String
  status : String
deriving DecidableEq, Repr

/-- Result of one run of handleDisableTotp in ProfilePage: which external
calls were made and a tag for the toast/outcome path taken. -/
structure DisableOutcome where
  listFactorsCalled : Bool
  challengeAndVerifyCalled : Bool
  unenrollCalled : Bool
  rpcSetTotpEnabledArgs : List Bool
  result : String
deriving DecidableEq, Repr

/-- Embedding of handleDisableTotp.  The provider results are inputs.  The
only check the client performs on the entered code is that it is non-empty
after trim; a failed challengeAndVerify aborts before unenroll; when no
verified totp factor exists the profile flag is synced to false. -/
def handleDisableTotp (code : String)
    (listFactorsResp : Except String (List MfaFactor))
    (challengeVerifyResp : Except String Unit)
    (unenrollResp : Except String Unit)
    (rpcResp : Except String Unit) : DisableOutcome :=
  if strTrim code = "" then
    { listFactorsCalled := false, challengeAndVerifyCalled := false,
      unenrollCalled := false, rpcSetTotpEnabledArgs := [], result := "missing_code" }
  else
    match listFactorsResp with
    | Except.error _ =>
      { listFactorsCalled := true, challengeAndVerifyCalled := false,
        unenrollCalled := false, rpcSetTotpEnabledArgs := [], result := "factors_error" }
    | Except.ok fs =>
      match fs.find? (fun f => f.status == "verified") with
      | none =>
        { listFactorsCalled := true, challengeAndVerifyCalled := false,
          unenrollCalled := false, rpcSetTotpEnabledArgs := [false],
          result := "no_active_factor" }
      | some _ =>
        match challengeVerifyResp with
        | Except.error _ =>
          { listFactorsCalled := true, challengeAndVerifyCalled := true,
            unenrollCalled := false, rpcSetTotpEnabledArgs := [],
            result := "invalid_code" }
        | Except.ok _ =>
          match unenrollResp with
          | Except.error _ =>
            { listFactorsCalled := true, challengeAndVerifyCalled := true,
              unenrollCalled := true, rpcSetTotpEnabledArgs := [],
              result := "unenroll_error" }
          | Except.ok _ =>
            match rpcResp with
            | Except.error _ =>
              { listFactorsCalled := true, challengeAndVerifyCalled := true,
                unenrollCalled := true, rpcSetTotpEnabledArgs := [false],
                result := "partial_error" }
            | Except.ok _ =>
              { listFactorsCalled := true, challengeAndVerifyCalled := true,
                unenrollCalled := true, rpcSetTotpEnabledArgs := [false],
                result := "disabled_ok" }

/-- JavaScript truthiness for an optional string field (undefined and the
empty string are falsy). -/
def jsTruthy : Option String → Bool
  | none => false
  | some s => !(s == "")

/-- JavaScript String.includes: the needle occurs as a substring (an empty
needle always occurs). -/
def strIncludes (haystack needle : String) : Bool :=
  chOccurs needle.data haystack.data

/-- Payload of the create-user edge function (all fields optional in raw
JSON; the function checks their truthiness itself). -/
structure CreateUserPayload where
  email : Option String
  password : Option String
  full_name : Option String
  username : Option String
  role : Option String
deriving DecidableEq, Repr

/-- Error object returned by supabase.auth.admin.createUser. -/
structure AuthAdminError where
  message : String
  status : Option Nat
deriving DecidableEq, Repr

/-- Error object returned by the profiles update (PostgrestError shape). -/
structure PostgrestErrorModel where
  code : Option String
  message : Option String
  details : Option String
  status : Option Nat
deriving DecidableEq, Repr

/-- Side effects on the managed backend performed by the edge function. -/
inductive AdminEffect where
  | authUserCreated (id : String)
  | authUserDeleted (id : String)
  | profileUpdated (id : String)
deriving DecidableEq, Repr

/-- HTTP response of the edge function (status plus an error tag; the
French message texts of the source are abridged to ASCII tags). -/
structure EdgeResponse where
  status : Nat
  errorTag : Option String
deriving DecidableEq, Repr

/-- The status computation for an auth.admin.createUser error: special
cases for a duplicate email (409) and a short password (400), otherwise
authError.status with a JavaScript-falsy fallback of 400. -/
def authErrorStatus (ae : AuthAdminError) : Nat :=
  let lower := strLower ae.message
  if strIncludes lower "unique constraint" && strIncludes lower "email" then 409
  else if strIncludes lower "password should be at least 6 characters" then 400
  else match ae.status with
    | some n => if n = 0 then 400 else n
    | none => 400

/-- The status computation for a profiles-update error, in source order:
code 23505 gives 409; unique-constraint messages naming the username or
email key give 409; any other truthy code falls back to the PostgrestError
status (JavaScript-falsy fallback 500); otherwise 500. -/
def profileErrorStatus (pe : PostgrestErrorModel) : Nat :=
  let msg := strLower (pe.message.getD "")
  let det := strLower (pe.details.getD "")
  if jsTruthy pe.code && (pe.code.getD "" == "23505") then 409
  else if strIncludes msg "unique constraint"
      && (strIncludes msg "profiles_username_key" || strIncludes det "username") then 409
  else if strIncludes msg "unique constraint"
      && (strIncludes msg "profiles_email_key" || strIncludes det "email") then 409
  else if jsTruthy pe.code then
    match pe.status with
    | some n => if n = 0 then 500 else n
    | none => 500
  else 500

/-- Embedding of the create-user edge function body (the happy path after
CORS and configuration checks).  Inputs are the parsed payload and the
results of the two fallible backend calls: auth.admin.createUser (ok gives
the new user id) and the profiles update.  The email re-confirmation step
ignores its error and is omitted.  The returned effect list records, in
order, the durable backend mutations that happened; note that no deletion
effect exists on any path. -/
def createUserFunction (payload : CreateUserPayload)
    (authResult : Except AuthAdminError String)
    (profileResult : Except PostgrestErrorModel Unit) :
    EdgeResponse × List AdminEffect :=
  if !(jsTruthy payload.email && jsTruthy payload.password && jsTruthy payload.full_name
      && jsTruthy payload.username && jsTruthy payload.role) then
    ({ status := 400, errorTag := some "missing_required_fields" }, [])
  else
    match authResult with
    | Except.error ae =>
      ({ status := authErrorStatus ae, errorTag := some "auth_error" }, [])
    | Except.ok newUserId =>
      match profileResult with
      | Except.error pe =>
        ({ status := profileErrorStatus pe, errorTag := some "profile_update_error" },
         [AdminEffect.authUserCreated newUserId])
      | Except.ok _ =>
        ({ status := 201, errorTag := none },
         [AdminEffect.authUserCreated newUserId, AdminEffect.profileUpdated newUserId])

/-- Fixture row used by the witnesses: user alice with id 1. -/
def aliceRow : ProfileRow :=
  { id := 1, username := "Alice", full_name := "Alice A", role := "user",
    status := "approved", is_totp_enabled := false }

/-- Fixture row used by the witnesses: user bob with id 2. -/
def bobRow : ProfileRow :=
  { id := 2, username := "bob", full_name := "Bob B", role := "moderator",
    status := "approved", is_totp_enabled := true }

/-- Fixture dialog state in the verify step with an enrolled factor and a
six-character code entered. -/
def verifyReadySt : TotpDialogState :=
  { resetDialogState with
    step := TotpStep.verify
    factorId := some "factor1"
    verificationCode := "123456" }

/-- Fixture verify response carrying two recovery codes at top level. -/
def sampleVerifyOkResp : VerifyResponseData :=
  { recovery_codes := some ["r1", "r2"], totp_recovery_codes := none }

/-- Fixture create-user payload with every field present and non-empty. -/
def samplePayload : CreateUserPayload :=
  { email := some "new@example.com", password := some "hunter22",
    full_name := some "New User", username := some "Alice",
    role := some "user" }

/-- Fixture profiles-update error: the duplicate-username unique-violation
(SQLSTATE 23505) raised when the chosen username is already taken. -/
def samplePgErr : PostgrestErrorModel :=
  { code := some "23505",
    message := some "duplicate key value violates unique constraint profiles_username_key",
    details := none, status := none }

/-- Pairwise is preserved by an implication that may use membership of
both elements. -/
theorem pairwise_imp_mem {α : Type _} {R S : α → α → Prop} :
    ∀ {l : List α}, (∀ a ∈ l, ∀ b ∈ l, R a b → S a b) → l.Pairwise R → l.Pairwise S := by
  intro l
  induction l with
  | nil => intro _ _; exact List.Pairwise.nil
  | cons x xs ih =>
    intro H h
    rcases List.pairwise_cons.mp h with ⟨hx, hxs⟩
    refine List.pairwise_cons.mpr ⟨?_, ih ?_ hxs⟩
    · intro b hb
      exact H x (List.mem_cons_self x xs) b (List.mem_cons_of_mem _ hb) (hx b hb)
    · intro a ha b hb hr
      exact H a (List.mem_cons_of_mem _ ha) b (List.mem_cons_of_mem _ hb) hr

/-- Two Pairwise facts on the same list combine pointwise. -/
theorem pairwise_and {α : Type _} {R S : α → α → Prop} :
    ∀ {l : List α}, l.Pairwise R → l.Pairwise S → l.Pairwise fun a b => R a b ∧ S a b := by
  intro l
  induction l with
  | nil => intro _ _; exact List.Pairwise.nil
  | cons x xs ih =>
    intro h₁ h₂
    rcases List.pairwise_cons.mp h₁ with ⟨hx₁, t₁⟩
    rcases List.pairwise_cons.mp h₂ with ⟨hx₂, t₂⟩
    exact List.pairwise_cons.mpr ⟨fun b hb => ⟨hx₁ b hb, hx₂ b hb⟩, ih t₁ t₂⟩

/-- A list is Forall₂-related to its image under a map as soon as the
relation holds at every element. -/
theorem forall₂_map_self {α β : Type _} {R : α → β → Prop} (f : α → β) :
    ∀ {l : List α}, (∀ a ∈ l, R a (f a)) → List.Forall₂ R l (l.map f) := by
  intro l
  induction l with
  | nil => intro _; exact List.Forall₂.nil
  | cons x xs ih =>
    intro H
    exact List.Forall₂.cons (H x (List.mem_cons_self x xs))
      (ih fun a ha => H a (List.mem_cons_of_mem _ ha))

/-- update_username raises exactly when one of its four checks fires. -/
theorem update_username_isErr_iff (state : List ProfileRow) (uid : Nat) (u : String) :
    (∃ e, update_username state uid u = Except.error e) ↔
      (u.length < 3 ∨ 30 < u.length ∨ ¬ usernameRegexOk u
        ∨ ∃ p ∈ state, strLower p.username = strLower u ∧ p.id ≠ uid) := by
  unfold update_username
  by_cases h₁ : u.length < 3
  · simp [h₁]
  by_cases h₂ : 30 < u.length
  · simp [h₁, h₂]
  by_cases h₃ : ¬ usernameRegexOk u
  · simp [h₁, h₂, h₃]
  by_cases h₄ : ∃ p ∈ state, strLower p.username = strLower u ∧ p.id ≠ uid
  · simp [h₁, h₂, h₃, h₄]
  · simp [h₁, h₂, h₃, h₄]

/-- When every check passes, update_username performs the UPDATE and
returns the row found by RETURNING. -/
theorem update_username_ok (state : List ProfileRow) (uid : Nat) (u : String)
    (h₁ : ¬ u.length < 3) (h₂ : ¬ 30 < u.length) (h₃ : usernameRegexOk u = true)
    (h₄ : ¬ ∃ p ∈ state, strLower p.username = strLower u ∧ p.id ≠ uid) :
    update_username state uid u =
      Except.ok (applyUsername state uid u,
        (applyUsername state uid u).find? fun p => p.id == uid) := by
  unfold update_username
  rw [if_neg h₁, if_neg h₂, if_neg (not_not_intro h₃), if_neg h₄]

/-- A successful update_username call determines the new state and implies
that the uniqueness check passed. -/
theorem update_username_ok_inv {state : List ProfileRow} {uid : Nat} {u : String}
    {st' : List ProfileRow} {r : Option ProfileRow}
    (h : update_username state uid u = Except.ok (st', r)) :
    st' = applyUsername state uid u
      ∧ ¬ ∃ p ∈ state, strLower p.username = strLower u ∧ p.id ≠ uid := by
  unfold update_username at h
  by_cases h₁ : u.length < 3
  · rw [if_pos h₁] at h; cases h
  rw [if_neg h₁] at h
  by_cases h₂ : 30 < u.length
  · rw [if_pos h₂] at h; cases h
  rw [if_neg h₂] at h
  by_cases h₃ : ¬ usernameRegexOk u
  · rw [if_pos h₃] at h; cases h
  rw [if_neg h₃] at h
  by_cases h₄ : ∃ p ∈ state, strLower p.username = strLower u ∧ p.id ≠ uid
  · rw [if_pos h₄] at h; cases h
  rw [if_neg h₄] at h
  simp only [Except.ok.injEq, Prod.mk.injEq] at h
  exact ⟨h.1.symm, h₄⟩

/-- A successful set_totp_enabled call determines the new state. -/
theorem set_totp_enabled_ok_inv {state : List ProfileRow} {uid : Nat} {b : Bool}
    {st' : List ProfileRow}
    (h : set_totp_enabled state uid b = Except.ok st') :
    st' = applyTotpFlag state uid b := by
  unfold set_totp_enabled at h
  by_cases h₁ : ∃ p ∈ state, p.id = uid
  · rw [if_pos h₁] at h
    simp only [Except.ok.injEq] at h
    exact h.symm
  · rw [if_neg h₁] at h; cases h

/-- For a string long enough to pass the length check, failing the regex
is exactly containing a character outside the allowed class. -/
theorem regex_fail_iff (u : String) (hlen : ¬ u.length < 3) :
    (¬ usernameRegexOk u) ↔ ∃ c ∈ u.data, usernameCharOk c = false := by
  have hne : u.data.isEmpty = false := by
    cases hd : u.data with
    | nil =>
      exfalso
      apply hlen
      have : u.length = 0 := by simp [String.length, hd]
      omega
    | cons _ _ => simp [hd]
  unfold usernameRegexOk
  simp [hne, List.all_eq_true]

/-- RETURNING on the updated table finds precisely the updated caller row,
given that ids are pairwise distinct and the caller row exists. -/
theorem find_update_eq {state : List ProfileRow} {uid : Nat} {u : String} {p₀ : ProfileRow}
    (hids : state.Pairwise fun a b => a.id ≠ b.id)
    (hmem : p₀ ∈ state) (hid : p₀.id = uid) :
    (applyUsername state uid u).find? (fun p => p.id == uid)
      = some { p₀ with username := u } := by
  induction state with
  | nil => cases hmem
  | cons q rest ih =>
    rcases List.pairwise_cons.mp hids with ⟨hq, hrest⟩
    rcases List.mem_cons.mp hmem with h | h
    · subst h
      unfold applyUsername
      rw [List.map_cons]
      rw [if_pos hid]
      rw [List.find?_cons_of_pos]
      simp [hid]
    · have hqid : q.id ≠ uid := by
        have := hq p₀ h
        rw [hid] at this
        exact this
      unfold applyUsername
      rw [List.map_cons]
      rw [if_neg hqid]
      rw [List.find?_cons_of_neg]
      · exact ih hrest h
      · simp [hqid]

/-- The local validation of update_username passes exactly when the three
format checks pass. -/
theorem localValidation_true_iff (s : String) :
    update_username_localValidation s = true ↔
      (¬ s.length < 3 ∧ ¬ 30 < s.length ∧ usernameRegexOk s = true) := by
  unfold update_username_localValidation
  by_cases h₁ : s.length < 3
  · simp [h₁]
  by_cases h₂ : 30 < s.length
  · simp [h₁, h₂]
  by_cases h₃ : ¬ usernameRegexOk s
  · simp [h₁, h₂, h₃]
  · simp [h₁, h₂, h₃]
    exact Bool.of_not_eq_false fun hh => h₃ (by simp [hh])

/-- Claim C1 (evaluation at the failing inputs): the useAuth hook compares
the role against the UPPERCASE literals, while the role values declared by
the UserProfile type, written by the create-user edge function and
accepted by the UserManagementPage admin gate are lowercase; hence for the
stored roles user, moderator and admin every hierarchy flag of the hook is
false, although the page gate itself treats the lowercase admin as an
administrator, and only SUPER_ADMIN ever obtains canModerate or
canAdminister. -/
theorem useAuth_role_case_mismatch :
    (useAuthFlags (some "user")).isUser = false
    ∧ (useAuthFlags (some "moderator")).isModerator = false
    ∧ (useAuthFlags (some "admin")).isAdmin = false
    ∧ (useAuthFlags (some "user")).canModerate = false
    ∧ (useAuthFlags (some "user")).canAdminister = false
    ∧ (useAuthFlags (some "moderator")).canModerate = false
    ∧ (useAuthFlags (some "moderator")).canAdminister = false
    ∧ (useAuthFlags (some "admin")).canModerate = false
    ∧ (useAuthFlags (some "admin")).canAdminister = false
    ∧ (useAuthFlags (some "SUPER_ADMIN")).isSuperAdmin = true
    ∧ (useAuthFlags (some "SUPER_ADMIN")).canModerate = true
    ∧ (useAuthFlags (some "SUPER_ADMIN")).canAdminister = true
    ∧ userManagementRoleGate (some "admin") = true
    ∧ declaredProfileRoles = ["user", "moderator", "admin", "SUPER_ADMIN"] := by
  decide

/-- Claim C2: update_username raises an exception (returning no new table
state, since the exception aborts the transaction) exactly when the
proposed username has fewer than 3 characters, more than 30 characters,
contains a character outside letters, digits, underscore and dot, or
equals, ignoring case, the username of a profile of a different user; and
otherwise it stores exactly the proposed string on the caller row and
returns that updated row. -/
theorem update_username_exception_iff_checks
    (state : List ProfileRow) (uid : Nat) (u : String) (p₀ : ProfileRow)
    (hids : state.Pairwise fun a b => a.id ≠ b.id)
    (hmem : p₀ ∈ state) (hid : p₀.id = uid) :
    ((∃ e, update_username state uid u = Except.error e) ↔
      (u.length < 3 ∨ 30 < u.length ∨ (∃ c ∈ u.data, usernameCharOk c = false)
        ∨ ∃ p ∈ state, strLower p.username = strLower u ∧ p.id ≠ uid))
    ∧ ((∀ e, update_username state uid u ≠ Except.error e) →
      update_username state uid u =
        Except.ok (applyUsername state uid u, some { p₀ with username := u })) := by
  constructor
  · by_cases h₁ : u.length < 3
    · constructor
      · intro _; exact Or.inl h₁
      · intro _; exact (update_username_isErr_iff state uid u).mpr (Or.inl h₁)
    · rw [update_username_isErr_iff state uid u, regex_fail_iff u h₁]
  · intro hne
    have herr : ¬ ∃ e, update_username state uid u = Except.error e := by
      rintro ⟨e, he⟩; exact hne e he
    rw [update_username_isErr_iff state uid u] at herr
    push_neg at herr
    obtain ⟨hA, hB, hC, hD⟩ := herr
    have hD' : ¬ ∃ p ∈ state, strLower p.username = strLower u ∧ p.id ≠ uid := by
      rintro ⟨p, hp, hl, hpid⟩; exact hpid (hD p hp hl)
    rw [update_username_ok state uid u (by omega) (by omega) hC hD']
    rw [find_update_eq hids hmem hid]

/-- Witness for claim C2 at a concrete table: renaming alice to zzz
succeeds and returns the updated alice row. -/
theorem update_username_exception_iff_checks_witness :
    update_username [aliceRow, bobRow] 1 "zzz"
      = Except.ok (applyUsername [aliceRow, bobRow] 1 "zzz",
          some { aliceRow with username := "zzz" }) := by
  have h := (update_username_exception_iff_checks [aliceRow, bobRow] 1 "zzz" aliceRow
    (by simp [aliceRow, bobRow]) (List.mem_cons_self _ _) rfl).2
  apply h
  intro e he
  rw [show update_username [aliceRow, bobRow] 1 "zzz"
      = Except.ok ([{ aliceRow with username := "zzz" }, bobRow],
          some { aliceRow with username := "zzz" }) from rfl] at he
  cases he

/-- Claim C3: a successful update_username call preserves pairwise
case-insensitive distinctness of the usernames (ids are pairwise distinct
because id is the primary key of profiles). -/
theorem update_username_preserves_ci_uniqueness
    (state : List ProfileRow) (uid : Nat) (u : String)
    (st' : List ProfileRow) (r : Option ProfileRow)
    (hids : state.Pairwise fun a b => a.id ≠ b.id)
    (hpair : state.Pairwise fun a b => strLower a.username ≠ strLower b.username)
    (hok : update_username state uid u = Except.ok (st', r)) :
    st'.Pairwise fun a b => strLower a.username ≠ strLower b.username := by
  obtain ⟨hst, hfree⟩ := update_username_ok_inv hok
  subst hst
  unfold applyUsername
  rw [List.pairwise_map]
  have key : ∀ p ∈ state, strLower p.username = strLower u → p.id = uid := by
    intro p hp hl
    by_contra hne
    exact hfree ⟨p, hp, hl, hne⟩
  refine pairwise_imp_mem ?_ (pairwise_and hpair hids)
  intro a ha b hb hab
  obtain ⟨hu, hi⟩ := hab
  by_cases haid : a.id = uid <;> by_cases hbid : b.id = uid
  · exact absurd (haid.trans hbid.symm) hi
  · rw [if_pos haid, if_neg hbid]
    intro hEq
    exact hbid (key b hb (by simpa using hEq.symm))
  · rw [if_neg haid, if_pos hbid]
    intro hEq
    exact haid (key a ha (by simpa using hEq))
  · rw [if_neg haid, if_neg hbid]
    exact hu

/-- Witness for claim C3 at a concrete table: after alice renames herself
to BOB2, usernames are still pairwise distinct ignoring case. -/
theorem update_username_preserves_ci_uniqueness_witness :
    List.Pairwise (fun a b => strLower a.username ≠ strLower b.username)
      [{ aliceRow with username := "BOB2" }, bobRow] :=
  update_username_preserves_ci_uniqueness [aliceRow, bobRow] 1 "BOB2"
    [{ aliceRow with username := "BOB2" }, bobRow]
    (some { aliceRow with username := "BOB2" })
    (by simp [aliceRow, bobRow])
    (by simp [aliceRow, bobRow, strLower])
    (by rfl)

/-- Claim C4: a successful update_username or set_totp_enabled call leaves
every row whose id differs from the callers auth.uid() unchanged, and
set_totp_enabled changes no column other than is_totp_enabled on the
caller row (id is the primary key, so at most one row has the callers id;
a failed call raises, aborting the transaction, and returns no state). -/
theorem rpc_updates_only_caller_row
    (state : List ProfileRow) (uid : Nat) (u : String) (b : Bool) :
    (∀ st' r, update_username state uid u = Except.ok (st', r) →
      List.Forall₂ (fun p q => p.id ≠ uid → q = p) state st')
    ∧ (∀ st', set_totp_enabled state uid b = Except.ok st' →
      List.Forall₂ (fun p q => (p.id ≠ uid → q = p)
        ∧ q.id = p.id ∧ q.username = p.username ∧ q.full_name = p.full_name
        ∧ q.role = p.role ∧ q.status = p.status) state st') := by
  constructor
  · intro st' r hok
    obtain ⟨hst, _⟩ := update_username_ok_inv hok
    subst hst
    unfold applyUsername
    refine forall₂_map_self _ (fun p hp => ?_)
    intro hne
    rw [if_neg hne]
  · intro st' hok
    have hst := set_totp_enabled_ok_inv hok
    subst hst
    unfold applyTotpFlag
    refine forall₂_map_self _ (fun p hp => ?_)
    by_cases hne : p.id = uid
    · rw [if_pos hne]
      exact ⟨fun h => absurd hne h, rfl, rfl, rfl, rfl, rfl⟩
    · rw [if_neg hne]
      exact ⟨fun _ => rfl, rfl, rfl, rfl, rfl, rfl⟩

/-- Witness for claim C4 at a concrete table: enabling TOTP for alice
changes only the is_totp_enabled column of the alice row. -/
theorem rpc_updates_only_caller_row_witness :
    List.Forall₂ (fun p q => (p.id ≠ 1 → q = p)
      ∧ q.id = p.id ∧ q.username = p.username ∧ q.full_name = p.full_name
      ∧ q.role = p.role ∧ q.status = p.status)
      [aliceRow, bobRow] [{ aliceRow with is_totp_enabled := true }, bobRow] :=
  (rpc_updates_only_caller_row [aliceRow, bobRow] 1 "zzz" true).2
    [{ aliceRow with is_totp_enabled := true }, bobRow] (by rfl)

/-- Claim C9: when the proposed username differs from the callers current
one only in letter case (same ASCII lowercase image) and satisfies the
length and character rules, update_username succeeds, because the
uniqueness check excludes the caller row, and stores the string exactly
as passed. -/
theorem case_only_rename_succeeds
    (state : List ProfileRow) (uid : Nat) (u : String) (p₀ : ProfileRow)
    (hpair : state.Pairwise fun a b => strLower a.username ≠ strLower b.username)
    (hmem : p₀ ∈ state) (hid : p₀.id = uid)
    (hcase : strLower u = strLower p₀.username)
    (hlen₁ : 3 ≤ u.length) (hlen₂ : u.length ≤ 30)
    (hchars : usernameRegexOk u = true) :
    update_username state uid u =
      Except.ok (applyUsername state uid u,
        (applyUsername state uid u).find? fun p => p.id == uid)
      ∧ { p₀ with username := u } ∈ applyUsername state uid u
      ∧ ∀ q ∈ applyUsername state uid u, q.id = uid → q.username = u := by
  have hsym : Symmetric (fun a b : ProfileRow => strLower a.username ≠ strLower b.username) :=
    fun a b h e => h e.symm
  have h₄ : ¬ ∃ p ∈ state, strLower p.username = strLower u ∧ p.id ≠ uid := by
    rintro ⟨p, hp, hl, hpid⟩
    by_cases hpp : p = p₀
    · subst hpp; exact hpid hid
    · exact (List.Pairwise.forall hsym hpair hp hmem hpp) (hl.trans hcase)
  refine ⟨update_username_ok state uid u (by omega) (by omega) hchars h₄, ?_, ?_⟩
  · unfold applyUsername
    exact List.mem_map.mpr ⟨p₀, hmem, by rw [if_pos hid]⟩
  · intro q hq hqid
    unfold applyUsername at hq
    rcases List.mem_map.mp hq with ⟨p, hp, rfl⟩
    by_cases hpid : p.id = uid
    · simp [hpid]
    · simp [hpid] at hqid

/-- Witness for claim C9 at a concrete table: alice changes Alice to ALICE
and the row now carries exactly ALICE. -/
theorem case_only_rename_succeeds_witness :
    { aliceRow with username := "ALICE" } ∈ applyUsername [aliceRow, bobRow] 1 "ALICE" :=
  (case_only_rename_succeeds [aliceRow, bobRow] 1 "ALICE" aliceRow
    (by simp [aliceRow, bobRow, strLower])
    (List.mem_cons_self _ _) rfl (by rfl) (by decide) (by decide) (by rfl)).2.1

/-- Claim C10: the zod schema of UsernameEditForm accepts a string exactly
when the local validation of update_username accepts it; under a locally
valid username the RPC raises exactly on its additional uniqueness check,
and under a locally invalid one it always raises. -/
theorem username_validation_client_server_equiv :
    (∀ s, usernameFormSchema s = update_username_localValidation s)
    ∧ (∀ s state uid, update_username_localValidation s = true →
        ((∃ e, update_username state uid s = Except.error e) ↔
          ∃ p ∈ state, strLower p.username = strLower s ∧ p.id ≠ uid))
    ∧ (∀ s state uid, update_username_localValidation s = false →
        ∃ e, update_username state uid s = Except.error e) := by
  refine ⟨?_, ?_, ?_⟩
  · intro s
    unfold usernameFormSchema update_username_localValidation
    by_cases h₁ : s.length < 3
    · simp [h₁, decide_eq_false (by omega : ¬ 3 ≤ s.length)]
    by_cases h₂ : 30 < s.length
    · simp [h₁, h₂, decide_eq_true (by omega : 3 ≤ s.length),
        decide_eq_false (by omega : ¬ s.length ≤ 30)]
    · simp only [if_neg h₁, if_neg h₂,
        decide_eq_true (by omega : 3 ≤ s.length),
        decide_eq_true (by omega : s.length ≤ 30), Bool.true_and]
      by_cases h₃ : usernameRegexOk s
      · simp [h₃]
      · have hb : usernameRegexOk s = false := by simpa using h₃
        simp [hb]
  · intro s state uid hloc
    obtain ⟨hA, hB, hC⟩ := (localValidation_true_iff s).mp hloc
    rw [update_username_isErr_iff]
    simp [hA, hB, hC]
  · intro s state uid hloc
    rw [update_username_isErr_iff]
    unfold update_username_localValidation at hloc
    by_cases h₁ : s.length < 3
    · exact Or.inl h₁
    by_cases h₂ : 30 < s.length
    · exact Or.inr (Or.inl h₂)
    by_cases h₃ : ¬ usernameRegexOk s
    · exact Or.inr (Or.inr (Or.inl h₃))
    · rw [if_neg h₁, if_neg h₂, if_neg h₃] at hloc
      cases hloc

/-- Witness for claim C10 at a concrete table: BOB is locally valid and
the RPC rejects it for the caller alice because bob holds it ignoring
case. -/
theorem username_validation_client_server_equiv_witness :
    ∃ e, update_username [aliceRow, bobRow] 1 "BOB" = Except.error e :=
  (username_validation_client_server_equiv.2.1 "BOB" [aliceRow, bobRow] 1 (by rfl)).mpr
    ⟨bobRow, by simp, by rfl, by decide⟩

/-- Claim C5: the dialog step only ever takes the listed transitions:
enroll to verify on a successful enrollment; verify to recoveryCodes on a
successful verification returning a non-empty code list; verify to
completed on a successful verification without codes; recoveryCodes to
completed on the saved-codes confirmation; closing in any step other than
completed resets the whole state (step back to enroll) while closing in
completed changes nothing; and a failed enrollment or verification leaves
the step unchanged. -/
theorem totp_dialog_step_transitions :
    (∀ st e,
      (totpDialogNext st e).step = st.step
      ∨ (st.step = TotpStep.enroll
          ∧ (∃ d, e = TotpDialogEvent.enrollResult (Except.ok d))
          ∧ (totpDialogNext st e).step = TotpStep.verify)
      ∨ (st.step = TotpStep.verify
          ∧ (∃ c v cs, e = TotpDialogEvent.verifyClick (Except.ok c) (Except.ok v)
              ∧ extractRecoveryCodes v = some cs ∧ 0 < cs.length)
          ∧ (totpDialogNext st e).step = TotpStep.recoveryCodes)
      ∨ (st.step = TotpStep.verify
          ∧ (∃ c v, e = TotpDialogEvent.verifyClick (Except.ok c) (Except.ok v)
              ∧ ∀ cs, extractRecoveryCodes v = some cs → cs.length = 0)
          ∧ (totpDialogNext st e).step = TotpStep.completed)
      ∨ (st.step = TotpStep.recoveryCodes ∧ e = TotpDialogEvent.recoveryCodesSavedClick
          ∧ (totpDialogNext st e).step = TotpStep.completed)
      ∨ (st.step ≠ TotpStep.completed ∧ e = TotpDialogEvent.closeDialog
          ∧ (totpDialogNext st e).step = TotpStep.enroll))
    ∧ (∀ st msg,
        (totpDialogNext st (TotpDialogEvent.enrollResult (Except.error msg))).step = st.step)
    ∧ (∀ st msg vr,
        (totpDialogNext st (TotpDialogEvent.verifyClick (Except.error msg) vr)).step = st.step)
    ∧ (∀ st c msg,
        (totpDialogNext st (TotpDialogEvent.verifyClick c (Except.error msg))).step = st.step)
    ∧ (∀ st, st.step ≠ TotpStep.completed →
        totpDialogNext st TotpDialogEvent.closeDialog = resetDialogState)
    ∧ (∀ st, st.step = TotpStep.completed →
        totpDialogNext st TotpDialogEvent.closeDialog = st) := by
  refine ⟨?_, ?_, ?_, ?_, ?_, ?_⟩
  · intro st e
    cases e with
    | enrollResult r =>
      by_cases hs : st.step = TotpStep.enroll
      · cases r with
        | ok d =>
          right; left
          exact ⟨hs, ⟨d, rfl⟩, by simp [totpDialogNext, hs]⟩
        | error msg =>
          left
          simp [totpDialogNext, hs]
      · left; simp [totpDialogNext, hs]
    | verifyClick ch vr =>
      by_cases hs : st.step = TotpStep.verify
      · by_cases hg : st.factorId.isNone || !(st.verificationCode.length == 6)
        · left; simp [totpDialogNext, hs, handleVerifyCode, hg]
        · cases ch with
          | error msg => left; simp [totpDialogNext, hs, handleVerifyCode, hg]
          | ok c =>
            cases vr with
            | error msg => left; simp [totpDialogNext, hs, handleVerifyCode, hg]
            | ok v =>
              cases hE : extractRecoveryCodes v with
              | some cs =>
                by_cases hcs : 0 < cs.length
                · right; right; left
                  exact ⟨hs, ⟨c, v, cs, rfl, hE, hcs⟩,
                    by simp [totpDialogNext, hs, handleVerifyCode, hg, hE, hcs]⟩
                · right; right; right; left
                  refine ⟨hs, ⟨c, v, rfl, ?_⟩,
                    by simp [totpDialogNext, hs, handleVerifyCode, hg, hE, hcs]⟩
                  intro cs' h'
                  rw [hE] at h'
                  injection h' with h''
                  subst h''
                  omega
              | none =>
                right; right; right; left
                refine ⟨hs, ⟨c, v, rfl, ?_⟩,
                  by simp [totpDialogNext, hs, handleVerifyCode, hg, hE]⟩
                intro cs' h'
                rw [hE] at h'
                cases h'
      · left; simp [totpDialogNext, hs]
    | recoveryCodesSavedClick =>
      by_cases hs : st.step = TotpStep.recoveryCodes
      · right; right; right; right; left
        exact ⟨hs, rfl, by simp [totpDialogNext, hs]⟩
      · left; simp [totpDialogNext, hs]
    | closeDialog =>
      by_cases hs : st.step = TotpStep.completed
      · left; simp [totpDialogNext, hs]
      · right; right; right; right; right
        exact ⟨hs, rfl, by simp [totpDialogNext, hs, resetDialogState]⟩
  · intro st msg
    by_cases hs : st.step = TotpStep.enroll <;> simp [totpDialogNext, hs]
  · intro st msg vr
    by_cases hs : st.step = TotpStep.verify
    · by_cases hg : st.factorId.isNone || !(st.verificationCode.length == 6) <;>
        simp [totpDialogNext, hs, handleVerifyCode, hg]
    · simp [totpDialogNext, hs]
  · intro st c msg
    by_cases hs : st.step = TotpStep.verify
    · by_cases hg : st.factorId.isNone || !(st.verificationCode.length == 6)
      · simp [totpDialogNext, hs, handleVerifyCode, hg]
      · cases c with
        | error m => simp [totpDialogNext, hs, handleVerifyCode, hg]
        | ok cc => simp [totpDialogNext, hs, handleVerifyCode, hg]
    · simp [totpDialogNext, hs]
  · intro st hs
    simp [totpDialogNext, hs]
  · intro st hs
    simp [totpDialogNext, hs]

/-- Witness for claim C5: closing the dialog from the verify step resets
the whole state back to the initial one. -/
theorem totp_dialog_step_transitions_witness :
    totpDialogNext { resetDialogState with step := TotpStep.verify }
        TotpDialogEvent.closeDialog = resetDialogState :=
  totp_dialog_step_transitions.2.2.2.2.1
    { resetDialogState with step := TotpStep.verify } (by decide)

/-- Claim C6: recovery codes are displayed (renderContent shows the list
exactly when the step is recoveryCodes and the list is non-empty) only
after a successful challenge and verify returning a non-empty code list,
the displayed list is exactly the returned one, and a failed challenge or
verify never changes what is displayed. -/
theorem recovery_codes_display_correct :
    (∀ st e cs, displayedRecoveryCodes st = none →
      displayedRecoveryCodes (totpDialogNext st e) = some cs →
      st.step = TotpStep.verify
        ∧ (∃ c v, e = TotpDialogEvent.verifyClick (Except.ok c) (Except.ok v)
            ∧ extractRecoveryCodes v = some cs ∧ 0 < cs.length)
        ∧ (totpDialogNext st e).step = TotpStep.recoveryCodes)
    ∧ (∀ st msg vr,
        displayedRecoveryCodes
            (totpDialogNext st (TotpDialogEvent.verifyClick (Except.error msg) vr))
          = displayedRecoveryCodes st)
    ∧ (∀ st c msg,
        displayedRecoveryCodes
            (totpDialogNext st (TotpDialogEvent.verifyClick c (Except.error msg)))
          = displayedRecoveryCodes st) := by
  refine ⟨?_, ?_, ?_⟩
  · intro st e cs h0 h1
    cases e with
    | enrollResult r =>
      by_cases hs : st.step = TotpStep.enroll
      · cases r with
        | ok d =>
          rw [show displayedRecoveryCodes
              (totpDialogNext st (TotpDialogEvent.enrollResult (Except.ok d))) = none from by
            simp [displayedRecoveryCodes, totpDialogNext, hs]] at h1
          cases h1
        | error msg =>
          rw [show displayedRecoveryCodes
              (totpDialogNext st (TotpDialogEvent.enrollResult (Except.error msg)))
                = displayedRecoveryCodes st from by
            simp [displayedRecoveryCodes, totpDialogNext, hs], h0] at h1
          cases h1
      · rw [show totpDialogNext st (TotpDialogEvent.enrollResult r) = st from by
          simp [totpDialogNext, hs], h0] at h1
        cases h1
    | verifyClick ch vr =>
      by_cases hs : st.step = TotpStep.verify
      · by_cases hg : st.factorId.isNone || !(st.verificationCode.length == 6)
        · rw [show displayedRecoveryCodes
              (totpDialogNext st (TotpDialogEvent.verifyClick ch vr))
                = displayedRecoveryCodes st from by
            simp [displayedRecoveryCodes, totpDialogNext, hs, handleVerifyCode, hg], h0] at h1
          cases h1
        · cases ch with
          | error msg =>
            rw [show displayedRecoveryCodes
                (totpDialogNext st (TotpDialogEvent.verifyClick (Except.error msg) vr))
                  = displayedRecoveryCodes st from by
              simp [displayedRecoveryCodes, totpDialogNext, hs, handleVerifyCode, hg], h0] at h1
            cases h1
          | ok c =>
            cases vr with
            | error msg =>
              rw [show displayedRecoveryCodes
                  (totpDialogNext st (TotpDialogEvent.verifyClick (Except.ok c) (Except.error msg)))
                    = displayedRecoveryCodes st from by
                simp [displayedRecoveryCodes, totpDialogNext, hs, handleVerifyCode, hg], h0] at h1
              cases h1
            | ok v =>
              cases hE : extractRecoveryCodes v with
              | some cs' =>
                by_cases hcs : 0 < cs'.length
                · have hstep : (totpDialogNext st
                      (TotpDialogEvent.verifyClick (Except.ok c) (Except.ok v))).step
                        = TotpStep.recoveryCodes := by
                    simp [totpDialogNext, hs, handleVerifyCode, hg, hE, hcs]
                  have hrc : (totpDialogNext st
                      (TotpDialogEvent.verifyClick (Except.ok c) (Except.ok v))).recoveryCodes
                        = cs' := by
                    simp [totpDialogNext, hs, handleVerifyCode, hg, hE, hcs]
                  unfold displayedRecoveryCodes at h1
                  rw [hstep, hrc] at h1
                  simp [hcs] at h1
                  subst h1
                  exact ⟨hs, ⟨c, v, rfl, hE, hcs⟩, hstep⟩
                · rw [show displayedRecoveryCodes (totpDialogNext st
                      (TotpDialogEvent.verifyClick (Except.ok c) (Except.ok v))) = none from by
                    simp [displayedRecoveryCodes, totpDialogNext, hs, handleVerifyCode,
                      hg, hE, hcs]] at h1
                  cases h1
              | none =>
                rw [show displayedRecoveryCodes (totpDialogNext st
                    (TotpDialogEvent.verifyClick (Except.ok c) (Except.ok v))) = none from by
                  simp [displayedRecoveryCodes, totpDialogNext, hs, handleVerifyCode,
                    hg, hE]] at h1
                cases h1
      · rw [show totpDialogNext st (TotpDialogEvent.verifyClick ch vr) = st from by
          simp [totpDialogNext, hs], h0] at h1
        cases h1
    | recoveryCodesSavedClick =>
      by_cases hs : st.step = TotpStep.recoveryCodes
      · rw [show displayedRecoveryCodes
            (totpDialogNext st TotpDialogEvent.recoveryCodesSavedClick) = none from by
          simp [displayedRecoveryCodes, totpDialogNext, hs]] at h1
        cases h1
      · rw [show totpDialogNext st TotpDialogEvent.recoveryCodesSavedClick = st from by
          simp [totpDialogNext, hs], h0] at h1
        cases h1
    | closeDialog =>
      by_cases hs : st.step = TotpStep.completed
      · rw [show totpDialogNext st TotpDialogEvent.closeDialog = st from by
          simp [totpDialogNext, hs], h0] at h1
        cases h1
      · rw [show displayedRecoveryCodes (totpDialogNext st TotpDialogEvent.closeDialog)
            = none from by
          simp [displayedRecoveryCodes, totpDialogNext, hs, resetDialogState]] at h1
        cases h1
  · intro st msg vr
    by_cases hs : st.step = TotpStep.verify
    · by_cases hg : st.factorId.isNone || !(st.verificationCode.length == 6) <;>
        simp [displayedRecoveryCodes, totpDialogNext, hs, handleVerifyCode, hg]
    · simp [totpDialogNext, hs]
  · intro st c msg
    by_cases hs : st.step = TotpStep.verify
    · by_cases hg : st.factorId.isNone || !(st.verificationCode.length == 6)
      · simp [displayedRecoveryCodes, totpDialogNext, hs, handleVerifyCode, hg]
      · cases c with
        | error m => simp [displayedRecoveryCodes, totpDialogNext, hs, handleVerifyCode, hg]
        | ok cc => simp [displayedRecoveryCodes, totpDialogNext, hs, handleVerifyCode, hg]
    · simp [totpDialogNext, hs]

/-- Witness for claim C6: from the ready verify state, a successful
verify carrying codes r1 and r2 makes the dialog display exactly them. -/
theorem recovery_codes_display_correct_witness :
    verifyReadySt.step = TotpStep.verify
    ∧ (∃ c v, TotpDialogEvent.verifyClick (Except.ok "chal") (Except.ok sampleVerifyOkResp)
        = TotpDialogEvent.verifyClick (Except.ok c) (Except.ok v)
        ∧ extractRecoveryCodes v = some ["r1", "r2"] ∧ 0 < (["r1", "r2"] : List String).length)
    ∧ (totpDialogNext verifyReadySt
        (TotpDialogEvent.verifyClick (Except.ok "chal") (Except.ok sampleVerifyOkResp))).step
        = TotpStep.recoveryCodes :=
  recovery_codes_display_correct.1 verifyReadySt
    (TotpDialogEvent.verifyClick (Except.ok "chal") (Except.ok sampleVerifyOkResp))
    ["r1", "r2"] (by decide) (by decide)

/-- Claim C7: the client imposes only a shape condition on entered codes
(six characters after whitespace stripping when enabling; digits-only
non-empty input when disabling) and never inspects a code beyond that, so
two runs with shape-valid codes and identical provider responses produce
identical observables (steps, errors, calls made, RPC arguments,
completion), regardless of the code entered. -/
theorem totp_code_content_noninterference :
    (∀ (st : TotpDialogState) (c₁ c₂ : String) (ch : Except String String)
        (vr : Except String VerifyResponseData),
      (stripWhitespace c₁).length = 6 → (stripWhitespace c₂).length = 6 →
      verifyObservables
          (handleVerifyCode { st with verificationCode := stripWhitespace c₁ } ch vr)
        = verifyObservables
          (handleVerifyCode { st with verificationCode := stripWhitespace c₂ } ch vr))
    ∧ (∀ c₁ c₂ lf cv un rp,
      strTrim (sanitizeDisableCode c₁) ≠ "" → strTrim (sanitizeDisableCode c₂) ≠ "" →
      handleDisableTotp (sanitizeDisableCode c₁) lf cv un rp
        = handleDisableTotp (sanitizeDisableCode c₂) lf cv un rp) := by
  constructor
  · intro st c₁ c₂ ch vr h₁ h₂
    have e₁ : ((stripWhitespace c₁).length == 6) = true := beq_iff_eq.mpr h₁
    have e₂ : ((stripWhitespace c₂).length == 6) = true := beq_iff_eq.mpr h₂
    cases hf : st.factorId with
    | none =>
      simp [handleVerifyCode, hf, e₁, e₂, verifyObservables]
    | some fid =>
      cases ch with
      | error msg => simp [handleVerifyCode, hf, e₁, e₂, verifyObservables]
      | ok c =>
        cases vr with
        | error msg => simp [handleVerifyCode, hf, e₁, e₂, verifyObservables]
        | ok v =>
          cases hE : extractRecoveryCodes v with
          | some cs =>
            by_cases hcs : 0 < cs.length <;>
              simp [handleVerifyCode, hf, e₁, e₂, hE, hcs, verifyObservables]
          | none => simp [handleVerifyCode, hf, e₁, e₂, hE, verifyObservables]
  · intro c₁ c₂ lf cv un rp h₁ h₂
    unfold handleDisableTotp
    rw [if_neg h₁, if_neg h₂]

/-- Witness for claim C7: two different all-digit disable codes produce
the same outcome against identical provider responses. -/
theorem totp_code_content_noninterference_witness :
    handleDisableTotp (sanitizeDisableCode "111111")
        (Except.error "x") (Except.ok ()) (Except.ok ()) (Except.ok ())
      = handleDisableTotp (sanitizeDisableCode "222222")
        (Except.error "x") (Except.ok ()) (Except.ok ()) (Except.ok ()) :=
  totp_code_content_noninterference.2 "111111" "222222"
    (Except.error "x") (Except.ok ()) (Except.ok ()) (Except.ok ())
    (by decide) (by decide)

/-- The status attached to a profiles-update failure is always an error
status, provided the PostgrestError itself carries an error status. -/
theorem profileErrorStatus_ge (pe : PostgrestErrorModel)
    (hstatus : ∀ n, pe.status = some n → 400 ≤ n) :
    400 ≤ profileErrorStatus pe := by
  simp only [profileErrorStatus]
  by_cases hc1 : (jsTruthy pe.code && (pe.code.getD "" == "23505")) = true
  · simp [hc1]
  · rw [if_neg hc1]
    by_cases hc2 : (strIncludes (strLower (pe.message.getD "")) "unique constraint"
        && (strIncludes (strLower (pe.message.getD "")) "profiles_username_key"
          || strIncludes (strLower (pe.details.getD "")) "username")) = true
    · simp [hc2]
    · rw [if_neg hc2]
      by_cases hc3 : (strIncludes (strLower (pe.message.getD "")) "unique constraint"
          && (strIncludes (strLower (pe.message.getD "")) "profiles_email_key"
            || strIncludes (strLower (pe.details.getD "")) "email")) = true
      · simp [hc3]
      · rw [if_neg hc3]
        by_cases hc4 : jsTruthy pe.code = true
        · rw [if_pos hc4]
          cases hst : pe.status with
          | none => simp
          | some n =>
            by_cases hn : n = 0
            · simp [hn]
            · simp [hn]
              have := hstatus n hst
              omega
        · rw [if_neg hc4]
          omega

/-- Claim C8: with a well-formed payload, when auth.admin.createUser
succeeds and the subsequent profiles update fails, the edge function
returns an error response (409 for the duplicate-username SQLSTATE 23505)
while the auth account already exists and no deletion is ever performed;
on the success path the account creation precedes the profile update. -/
theorem create_user_not_atomic
    (payload : CreateUserPayload) (newUserId : String) (pe : PostgrestErrorModel)
    (hfields : jsTruthy payload.email = true ∧ jsTruthy payload.password = true
      ∧ jsTruthy payload.full_name = true ∧ jsTruthy payload.username = true
      ∧ jsTruthy payload.role = true)
    (hstatus : ∀ n, pe.status = some n → 400 ≤ n) :
    (createUserFunction payload (Except.ok newUserId) (Except.error pe)).2
        = [AdminEffect.authUserCreated newUserId]
    ∧ 400 ≤ (createUserFunction payload (Except.ok newUserId) (Except.error pe)).1.status
    ∧ (createUserFunction payload (Except.ok newUserId) (Except.error pe)).1.errorTag
        = some "profile_update_error"
    ∧ (pe.code = some "23505" →
        (createUserFunction payload (Except.ok newUserId) (Except.error pe)).1.status = 409)
    ∧ createUserFunction payload (Except.ok newUserId) (Except.ok ())
        = ({ status := 201, errorTag := none },
           [AdminEffect.authUserCreated newUserId, AdminEffect.profileUpdated newUserId]) := by
  obtain ⟨h1, h2, h3, h4, h5⟩ := hfields
  refine ⟨?_, ?_, ?_, ?_, ?_⟩
  · simp [createUserFunction, h1, h2, h3, h4, h5]
  · simp only [createUserFunction, h1, h2, h3, h4, h5]
    simpa using profileErrorStatus_ge pe hstatus
  · simp [createUserFunction, h1, h2, h3, h4, h5]
  · intro hc
    have h23505 : (jsTruthy pe.code && (pe.code.getD "" == "23505")) = true := by
      rw [hc]; rfl
    simp [createUserFunction, h1, h2, h3, h4, h5, profileErrorStatus, h23505]
  · simp [createUserFunction, h1, h2, h3, h4, h5]

/-- Witness for claim C8: a concrete duplicate-username failure answers
409 while the auth account remains created and undeleted. -/
theorem create_user_not_atomic_witness :
    (createUserFunction samplePayload (Except.ok "uid-1") (Except.error samplePgErr)).2
        = [AdminEffect.authUserCreated "uid-1"]
    ∧ (createUserFunction samplePayload (Except.ok "uid-1") (Except.error samplePgErr)).1.status
        = 409 :=
  ⟨(create_user_not_atomic samplePayload "uid-1" samplePgErr
      (by exact ⟨rfl, rfl, rfl, rfl, rfl⟩) (by intro n h; cases h)).1,
   (create_user_not_atomic samplePayload "uid-1" samplePgErr
      (by exact ⟨rfl, rfl, rfl, rfl, rfl⟩) (by intro n h; cases h)).2.2.2.1 rfl⟩
